import Mathlib

deriving instance DecidableEq for Except

/-!
Shallow embedding of the core of the `waste_to_treasure` marketplace backend:
the Cognito token verification / identity resolution pipeline
(`backend/app/core/security.py`) and the listing lifecycle service
(`backend/app/services/listing_service.py`), together with theorems checking
the specified properties against this embedding.

Database sessions are modelled by explicit state passing over a record of
entity lists; SQLAlchemy queries become `List.find?` / `List.filter` over
those lists, and `commit` of mutated rows becomes functional replacement.
External collaborators (the S3 upload, signature cryptography) are abstracted
to outcome fields, as the spec places them out of scope.
-/

namespace App

/-! ## Enums (from `app/models/user.py`, `app/models/category.py`,
`app/models/listing.py`) -/

/-- Roles from `UserRoleEnum` in `app/models/user.py`. -/
inductive UserRoleEnum
  | USER
  | ADMIN
deriving DecidableEq, Repr

/-- Account statuses from `UserStatusEnum` in `app/models/user.py`. -/
inductive UserStatusEnum
  | PENDING
  | ACTIVE
  | BLOCKED
deriving DecidableEq, Repr

/-- Listing statuses (`ListingStatusEnum`): PENDING, ACTIVE, REJECTED,
INACTIVE, per the data model and the uses in `listing_service.py`. -/
inductive ListingStatusEnum
  | PENDING
  | ACTIVE
  | REJECTED
  | INACTIVE
deriving DecidableEq, Repr

/-- Marketplace types (`ListingTypeEnum`): MATERIAL or PRODUCT. -/
inductive ListingTypeEnum
  | MATERIAL
  | PRODUCT
deriving DecidableEq, Repr

/-! ## Records -/

/-- Row of the `users` table (`app/models/user.py`): integer autoincrement
primary key `user_id`, unique external-subject string `cognito_sub`, unique
email, optional display name, role and status. -/
structure User where
  user_id : Nat
  cognito_sub : String
  email : String
  full_name : Option String
  role : UserRoleEnum
  status : UserStatusEnum
deriving DecidableEq, Repr

/-- Category row: numeric id, name, marketplace type, optional parent. -/
structure Category where
  category_id : Nat
  name : String
  type : ListingTypeEnum
  parent_category_id : Option Nat
deriving DecidableEq, Repr

/-- Listing row, fields as constructed in `ListingService.create_listing`
plus the `approved_by_admin_id` column written by `update_listing_status`.
Decimal prices are represented as integers (scaled); no claim computes on
price values. -/
structure Listing where
  listing_id : Nat
  seller_id : Nat
  category_id : Nat
  listing_type : ListingTypeEnum
  title : String
  description : String
  price : Int
  price_unit : String
  quantity : Int
  origin_description : Option String
  location_address_id : Option Nat
  status : ListingStatusEnum
  approved_by_admin_id : Option Nat
deriving DecidableEq, Repr

/-- Row of `listing_images` as constructed in `upload_listing_images`. -/
structure ListingImage where
  listing_id : Nat
  image_url : String
  is_primary : Bool
deriving DecidableEq, Repr

/-- The committed state of the persistent store: one list per table, plus
the autoincrement counter for listings. -/
structure DB where
  users : List User
  categories : List Category
  listings : List Listing
  images : List ListingImage
  next_listing_id : Nat
deriving DecidableEq, Repr

/-! ## Token verifier (`app/core/security.py`)

Tokens are modelled abstractly: a token string either fails structural JWT
parsing (`Token.malformed`) or decodes to header and claims.  Signature
cryptography is abstracted by `signedBy`: the `kid` of the key whose
signature the token actually carries (`none` when the signature matches no
key).  This follows the source's use of python-jose: `get_unverified_header`
reads the header, `jwt.decode` verifies signature, expiry, issuer and
audience. -/

/-- Decoded claim set of a token (`sub`, `email`, `exp`, `iss`, `aud`). -/
structure Claims where
  sub : Option String
  email : Option String
  exp : Int
  iss : String
  aud : String
deriving DecidableEq, Repr

/-- JWT header; only the key id `kid` is consulted by the source. -/
structure TokenHeader where
  kid : Option String
deriving DecidableEq, Repr

/-- One JWK from the cached key set; only `kid` is consulted for lookup. -/
structure JWK where
  kid : Option String
deriving DecidableEq, Repr

/-- The JWKS document fetched by `get_cognito_jwks` (its `keys` list). -/
structure JWKS where
  keys : List JWK
deriving DecidableEq, Repr

/-- A well-formed (structurally parseable) token: header, claims, and the
key id its signature was actually produced with (`none` = bad signature). -/
structure TokenData where
  header : TokenHeader
  claims : Claims
  signedBy : Option String
deriving DecidableEq, Repr

/-- A bearer token string: structurally invalid, or parsed token data. -/
inductive Token
  | malformed
  | parsed (td : TokenData)
deriving DecidableEq, Repr

/-- Configuration consulted by `security.py` (`app/core/config.py`). -/
structure Settings where
  COGNITO_REGION : String
  COGNITO_USER_POOL_ID : String
  COGNITO_APP_CLIENT_ID : String
deriving DecidableEq, Repr

/-- Errors raised by the security layer, named after the spec's taxonomy;
each constructor corresponds to one `HTTPException` raise site. -/
inductive AuthError
  | malformedToken
  | unknownSigningKey
  | invalidToken
  | unregisteredUser
  | accountBlocked
  | accountPending
deriving DecidableEq, Repr

/-- The expected issuer string built in `verify_cognito_token`. -/
def expected_issuer (st : Settings) : String :=
  "https://cognito-idp." ++ st.COGNITO_REGION ++ ".amazonaws.com/" ++
    st.COGNITO_USER_POOL_ID

/-- Signature check performed inside `jwt.decode` against the matched JWK:
the token's actual signing key must be the matched key. -/
def sigOk (td : TokenData) (key : JWK) : Bool :=
  match td.signedBy, key.kid with
  | some a, some b => a == b
  | _, _ => false

/-- Model of `jwt.decode(token, rsa_key, issuer=..., audience=..., options=...)`:
verifies signature, expiry, issuer and audience; any failure raises a
`JWTError`, collapsed by the caller into one error.  `now` is the clock
read used for the `exp` check. -/
def jwt_decode (td : TokenData) (key : JWK) (issuer audience : String)
    (now : Int) : Option Claims :=
  if !(sigOk td key) then none
  else if td.claims.exp < now then none
  else if td.claims.iss != issuer then none
  else if td.claims.aud != audience then none
  else some td.claims

/-- Model of `verify_cognito_token(token)`: header parse (else `MalformedToken`),
key lookup by `kid` (else `UnknownSigningKey`), then `jwt.decode` with
signature/expiry/issuer/audience checks (any failure: `InvalidToken`). -/
def verify_cognito_token (jwks : JWKS) (st : Settings) (now : Int)
    (token : Token) : Except AuthError Claims :=
  match token with
  | .malformed => .error .malformedToken
  | .parsed td =>
    match jwks.keys.find? (fun jwk => jwk.kid == td.header.kid) with
    | none => .error .unknownSigningKey
    | some key =>
      match jwt_decode td key (expected_issuer st) st.COGNITO_APP_CLIENT_ID
          now with
      | none => .error .invalidToken
      | some payload => .ok payload

/-! ## UUID parsing (`uuid.UUID(user_id_str)` in `get_current_user`)

CPython's `uuid.UUID(hex=s)` removes the substrings `urn:` and `uuid:`,
strips curly braces from both ends, removes all hyphens, and requires the
remaining 32 characters to be hex digits; the value is those digits read
base 16. -/

/-- Hex digit test for CPython's `int(hex, 16)`. -/
def isHexDigitChar (c : Char) : Bool :=
  c.isDigit || ('a' ≤ c && c ≤ 'f') || ('A' ≤ c && c ≤ 'F')

/-- Value of a hex digit. -/
def hexVal (c : Char) : Nat :=
  if c.isDigit then c.toNat - '0'.toNat
  else if 'a' ≤ c && c ≤ 'f' then c.toNat - 'a'.toNat + 10
  else c.toNat - 'A'.toNat + 10

/-- Fuel-indexed worker for `replace_all` (fuel keeps the recursion
structural, so it evaluates in the kernel). -/
def replace_go (pat repl : List Char) : Nat → List Char → List Char
  | 0, l => l
  | _ + 1, [] => []
  | fuel + 1, c :: rest =>
    if pat ≠ [] && pat.isPrefixOf (c :: rest) then
      repl ++ replace_go pat repl fuel (List.drop pat.length (c :: rest))
    else
      c :: replace_go pat repl fuel rest

/-- Python `str.replace`: replace every (non-overlapping, leftmost-first)
occurrence of `pat` by `repl`. -/
def replace_all (l pat repl : List Char) : List Char :=
  replace_go pat repl l.length l

/-- Curly-brace test (for Python's `.strip` of braces). -/
def isBraceChar (c : Char) : Bool :=
  c == '\x7b' || c == '\x7d'

/-- Python `str.strip` of curly braces: drop them from both ends. -/
def stripBraces (l : List Char) : List Char :=
  ((l.dropWhile isBraceChar).reverse.dropWhile isBraceChar).reverse

/-- Model of `uuid.UUID(s)`: `none` models the `ValueError` branch, `some v` the
UUID object with 128-bit integer value `v`. -/
def uuid_of_string (s : String) : Option Nat :=
  let t1 := replace_all (s.toList) ("urn:".toList) []
  let t2 := replace_all t1 ("uuid:".toList) []
  let cs := (stripBraces t2).filter (fun c => c != '-')
  if cs.length == 32 && cs.all isHexDigitChar then
    some (cs.foldl (fun acc c => acc * 16 + hexVal c) 0)
  else none

/-! ## Strict identity resolver (`get_current_user` in `security.py`) -/

/-- The strict resolver `get_current_user`, from the verified claim set onward: extract `sub`
(else `InvalidToken`), parse it as a UUID (else `InvalidToken`), then run
`select(User).where(User.user_id == user_id)` — the source compares the
integer primary-key column `user_id` against the parsed UUID value — and
gate on the found user's status. -/
def get_current_user (users : List User) (payload : Claims) :
    Except AuthError User :=
  match payload.sub with
  | none => .error .invalidToken
  | some user_id_str =>
    match uuid_of_string user_id_str with
    | none => .error .invalidToken
    | some user_id =>
      match users.find? (fun u => u.user_id == user_id) with
      | none => .error .unregisteredUser
      | some user =>
        if user.status == UserStatusEnum.BLOCKED then .error .accountBlocked
        else if user.status == UserStatusEnum.PENDING then
          .error .accountPending
        else .ok user

/-! ## Listing service (`app/services/listing_service.py`) -/

/-- Errors raised by `ListingService`, one constructor per raise site
(named after the spec's taxonomy). -/
inductive ListingError
  | notFound
  | forbidden
  | immutableState
  | categoryNotFound
  | categoryTypeMismatch
  | userNotFound
  | accountNotActive
  | imageQuotaExceeded
  | invalidImageType
  | uploadError
deriving DecidableEq, Repr

/-- Creation payload.  Field set taken from the `Listing(...)` constructor
call in `create_listing`; `status` is a client-supplied value the service
never reads (per the spec, creation overrides any client-supplied status;
the schema file itself is not among the sources). -/
structure ListingCreate where
  category_id : Nat
  listing_type : ListingTypeEnum
  title : String
  description : String
  price : Int
  price_unit : String
  quantity : Int
  origin_description : Option String
  location_address_id : Option Nat
  status : Option ListingStatusEnum
deriving DecidableEq, Repr

/-- Modelled from the spec: the `ListingUpdate` schema is not among the
sources; per the spec, update "applies only the fields present in input
(partial update semantics)" over the listing's content fields (category
reference, listing type, title, description, price, price unit, quantity,
origin description, location).  A `none` field is absent from the payload
(Pydantic `exclude_unset`); a present optional field carries the new
optional value. -/
structure ListingUpdate where
  category_id : Option Nat
  listing_type : Option ListingTypeEnum
  title : Option String
  description : Option String
  price : Option Int
  price_unit : Option String
  quantity : Option Int
  origin_description : Option (Option String)
  location_address_id : Option (Option Nat)
deriving DecidableEq, Repr

/-- The all-absent update payload (every field unset). -/
def ListingUpdate.empty : ListingUpdate :=
  ⟨none, none, none, none, none, none, none, none, none⟩

/-- Moderation payload (`ListingStatusUpdate`): the new status and an
optional reason; the service reads only `status`. -/
structure ListingStatusUpdate where
  status : ListingStatusEnum
  reason : Option String
deriving DecidableEq, Repr

/-- An uploaded file as seen by `upload_listing_images`: filename and
declared media type.  `s3_upload_ok` abstracts the outcome of the external
`S3Service.upload_image` call (out-of-scope collaborator): `false` models
the exception branch. -/
structure UploadFile where
  filename : String
  content_type : String
  s3_upload_ok : Bool
deriving DecidableEq, Repr

/-- Model of `get_listing_by_id(listing_id, include_inactive)`: first listing with
the given id, filtered to ACTIVE unless `include_inactive`. -/
def get_listing_by_id (db : DB) (listing_id : Nat)
    (include_inactive : Bool) : Option Listing :=
  db.listings.find? (fun l =>
    l.listing_id == listing_id &&
      (include_inactive || l.status == ListingStatusEnum.ACTIVE))

/-- The `images` relationship of a listing: its rows in `listing_images`. -/
def listing_images (db : DB) (listing_id : Nat) : List ListingImage :=
  db.images.filter (fun im => im.listing_id == listing_id)

/-- Model of `_validate_category`: the category must exist and its `type` must
equal the requested listing type. -/
def validate_category (db : DB) (category_id : Nat)
    (listing_type : ListingTypeEnum) : Except ListingError Unit :=
  match db.categories.find? (fun c => c.category_id == category_id) with
  | none => .error .categoryNotFound
  | some category =>
    if category.type != listing_type then .error .categoryTypeMismatch
    else .ok ()

/-- Model of `_validate_seller`: the user must exist and have status ACTIVE. -/
def validate_seller (db : DB) (seller_id : Nat) : Except ListingError Unit :=
  match db.users.find? (fun u => u.user_id == seller_id) with
  | none => .error .userNotFound
  | some seller =>
    if seller.status != UserStatusEnum.ACTIVE then .error .accountNotActive
    else .ok ()

/-- Commit of a mutated row: every listing with the row's id is replaced
by the mutated value. -/
def replace_listing (db : DB) (l' : Listing) : DB :=
  { db with
    listings := db.listings.map (fun l =>
      if l.listing_id == l'.listing_id then l' else l) }

/-- Model of `create_listing(listing_data, seller_id)`: validates category and
seller, then persists a row whose status is set to PENDING by the
constructor call. -/
def create_listing (db : DB) (listing_data : ListingCreate)
    (seller_id : Nat) : DB × Except ListingError Listing :=
  match validate_category db listing_data.category_id
      listing_data.listing_type with
  | .error e => (db, .error e)
  | .ok _ =>
    match validate_seller db seller_id with
    | .error e => (db, .error e)
    | .ok _ =>
      let db_listing : Listing :=
        { listing_id := db.next_listing_id
          seller_id := seller_id
          category_id := listing_data.category_id
          listing_type := listing_data.listing_type
          title := listing_data.title
          description := listing_data.description
          price := listing_data.price
          price_unit := listing_data.price_unit
          quantity := listing_data.quantity
          origin_description := listing_data.origin_description
          location_address_id := listing_data.location_address_id
          status := ListingStatusEnum.PENDING
          approved_by_admin_id := none }
      ({ db with
          listings := db.listings ++ [db_listing]
          next_listing_id := db.next_listing_id + 1 },
        .ok db_listing)

/-- The `setattr` loop of `update_listing` over
`listing_data.model_dump(exclude_unset=True)`: each present field is
written, each absent field left as is. -/
def apply_update_fields (l : Listing) (d : ListingUpdate) : Listing :=
  { l with
    category_id := d.category_id.getD l.category_id
    listing_type := d.listing_type.getD l.listing_type
    title := d.title.getD l.title
    description := d.description.getD l.description
    price := d.price.getD l.price
    price_unit := d.price_unit.getD l.price_unit
    quantity := d.quantity.getD l.quantity
    origin_description := d.origin_description.getD l.origin_description
    location_address_id :=
      d.location_address_id.getD l.location_address_id }

/-- Model of `update_listing(listing_id, listing_data, seller_id)`: 404 if not
found (inactive included), 403 if the caller is not the owner, 400 if the
listing is REJECTED, otherwise apply the present fields and commit. -/
def update_listing (db : DB) (listing_id : Nat) (listing_data : ListingUpdate)
    (seller_id : Nat) : DB × Except ListingError Listing :=
  match get_listing_by_id db listing_id true with
  | none => (db, .error .notFound)
  | some db_listing =>
    if db_listing.seller_id != seller_id then (db, .error .forbidden)
    else if db_listing.status == ListingStatusEnum.REJECTED then
      (db, .error .immutableState)
    else
      let l' := apply_update_fields db_listing listing_data
      (replace_listing db l', .ok l')

/-- Model of `delete_listing(listing_id, seller_id)` (soft delete): 404 if not
found, 403 if the caller is not the owner, otherwise set status INACTIVE
and commit, returning `True`. -/
def delete_listing (db : DB) (listing_id : Nat) (seller_id : Nat) :
    DB × Except ListingError Bool :=
  match get_listing_by_id db listing_id true with
  | none => (db, .error .notFound)
  | some db_listing =>
    if db_listing.seller_id != seller_id then (db, .error .forbidden)
    else
      (replace_listing db { db_listing with
          status := ListingStatusEnum.INACTIVE },
        .ok true)

/-- Model of `update_listing_status(listing_id, status_update, admin_id)` (admin
moderation): 404 if not found; otherwise write the new status, record the
admin as approver exactly when the new status is ACTIVE, and commit.  No
ownership check is performed. -/
def update_listing_status (db : DB) (listing_id : Nat)
    (status_update : ListingStatusUpdate) (admin_id : Nat) :
    DB × Except ListingError Listing :=
  match get_listing_by_id db listing_id true with
  | none => (db, .error .notFound)
  | some db_listing =>
    let l1 := { db_listing with status := status_update.status }
    let l2 :=
      if status_update.status == ListingStatusEnum.ACTIVE then
        { l1 with approved_by_admin_id := some admin_id }
      else l1
    (replace_listing db l2, .ok l2)

/-- Model of `S3Service.upload_image(file, folder)` (external collaborator,
abstracted): produces the stored URL, or fails per the file's oracle
bit. -/
def s3_upload_image (file : UploadFile) (folder : String) : Option String :=
  if file.s3_upload_ok then some (folder ++ "/" ++ file.filename)
  else none

/-- Model of `file.content_type.startswith('image/')`, the media-type check of
`upload_listing_images`, as a character-list test. -/
def content_type_is_image (file : UploadFile) : Bool :=
  "image/".toList.isPrefixOf file.content_type.toList

/-- The `for idx, file in enumerate(files)` loop of
`upload_listing_images`: validates each file's media type, uploads it to
S3, and stages a `ListingImage` row on the session (`acc`); the row at
enumeration index `primary_index` is primary only when the listing had no
images.  An exception anywhere aborts with the staged rows uncommitted. -/
def upload_images_loop (lid : Nat) (primary_index : Int)
    (current_images : Nat) (acc : List ListingImage) (idx : Nat) :
    List UploadFile → Except ListingError (List ListingImage)
  | [] => .ok acc
  | file :: rest =>
    if !(content_type_is_image file) then .error .invalidImageType
    else
      match s3_upload_image file ("listings/" ++ toString lid) with
      | none => .error .uploadError
      | some image_url =>
        let is_primary :=
          (Int.ofNat idx == primary_index) && (current_images == 0)
        upload_images_loop lid primary_index current_images
          (acc ++ [{ listing_id := lid, image_url := image_url,
                     is_primary := is_primary }])
          (idx + 1) rest

/-- Model of `upload_listing_images(listing_id, files, seller_id, primary_index)`:
404 if not found, 403 if the caller is not the owner, 400 if existing +
new images exceed 10, then the per-file loop; `db.commit()` runs only
after the whole loop, so an error leaves the committed store unchanged. -/
def upload_listing_images (db : DB) (listing_id : Nat)
    (files : List UploadFile) (seller_id : Nat) (primary_index : Int) :
    DB × Except ListingError (List ListingImage) :=
  match get_listing_by_id db listing_id true with
  | none => (db, .error .notFound)
  | some db_listing =>
    if db_listing.seller_id != seller_id then (db, .error .forbidden)
    else
      let current_images := (listing_images db listing_id).length
      if current_images + files.length > 10 then
        (db, .error .imageQuotaExceeded)
      else
        match upload_images_loop listing_id primary_index current_images
            [] 0 files with
        | .error e => (db, .error e)
        | .ok uploaded =>
          ({ db with images := db.images ++ uploaded }, .ok uploaded)

/-! ## Concrete instances for the claim checks -/

/-- Fixed instance for claim C1: an ACTIVE registered user whose
`cognito_sub` is exactly the canonical rendering of the token subject. -/
def c1_user : User :=
  { user_id := 1
    cognito_sub := "123e4567-e89b-12d3-a456-426614174000"
    email := "seller@example.com"
    full_name := none
    role := UserRoleEnum.USER
    status := UserStatusEnum.ACTIVE }

/-- Fixed verified claim set for claim C1, whose subject is the external
identifier of `c1_user`. -/
def c1_payload : Claims :=
  { sub := some "123e4567-e89b-12d3-a456-426614174000"
    email := some "seller@example.com"
    exp := 1700000000
    iss := "https://cognito-idp.us-east-1.amazonaws.com/pool"
    aud := "client" }

/-- Configuration instance for the C3 witness. -/
def c3_st : Settings :=
  { COGNITO_REGION := "us-east-1"
    COGNITO_USER_POOL_ID := "us-east-1_pool"
    COGNITO_APP_CLIENT_ID := "client-id-1" }

/-- Signing key instance for the C3 witness. -/
def c3_key : JWK := { kid := some "kid1" }

/-- Token instance for the C3 witness: signed with the cached key, not
expired at clock 1000, correct issuer and audience. -/
def c3_td : TokenData :=
  { header := { kid := some "kid1" }
    claims :=
      { sub := some "123e4567-e89b-12d3-a456-426614174000"
        email := some "seller@example.com"
        exp := 2000
        iss := expected_issuer c3_st
        aud := "client-id-1" }
    signedBy := some "kid1" }

/-- Listing instance for the C5 witness: owned by user 1, PENDING. -/
def c5_listing : Listing :=
  { listing_id := 1, seller_id := 1, category_id := 1
    listing_type := ListingTypeEnum.MATERIAL, title := "Old title"
    description := "desc", price := 10, price_unit := "kg", quantity := 5
    origin_description := none, location_address_id := none
    status := ListingStatusEnum.PENDING, approved_by_admin_id := none }

/-- Store instance for the C5 witness. -/
def c5_db : DB :=
  { users := [], categories := [], listings := [c5_listing], images := []
    next_listing_id := 2 }

/-- Partial input for the C5 witness: only the title is present. -/
def c5_upd : ListingUpdate := { ListingUpdate.empty with title := some "New" }

/-- Seller instance for the C6 witness. -/
def c6_user : User :=
  { user_id := 1, cognito_sub := "sub-c6", email := "c6@example.com"
    full_name := none, role := UserRoleEnum.USER
    status := UserStatusEnum.ACTIVE }

/-- Category instance for the C6 witness. -/
def c6_cat : Category :=
  { category_id := 1, name := "Wood", type := ListingTypeEnum.MATERIAL
    parent_category_id := none }

/-- Store instance for the C6 witness. -/
def c6_db : DB :=
  { users := [c6_user], categories := [c6_cat], listings := [], images := []
    next_listing_id := 1 }

/-- Creation input for the C6 witness, carrying a client-supplied status
ACTIVE that the service must override. -/
def c6_data : ListingCreate :=
  { category_id := 1, listing_type := ListingTypeEnum.MATERIAL
    title := "Pallets", description := "Used pallets", price := 5
    price_unit := "unit", quantity := 100, origin_description := none
    location_address_id := none
    status := some ListingStatusEnum.ACTIVE }

/-- The listing persisted by the C6 witness creation. -/
def c6_listing : Listing :=
  { listing_id := 1, seller_id := 1, category_id := 1
    listing_type := ListingTypeEnum.MATERIAL, title := "Pallets"
    description := "Used pallets", price := 5, price_unit := "unit"
    quantity := 100, origin_description := none
    location_address_id := none, status := ListingStatusEnum.PENDING
    approved_by_admin_id := none }

/-- Category instance for claim C2: type MATERIAL. -/
def c2_cat : Category :=
  { category_id := 1, name := "Wood", type := ListingTypeEnum.MATERIAL
    parent_category_id := none }

/-- Seller instance for claim C2. -/
def c2_seller : User :=
  { user_id := 1, cognito_sub := "sub-c2", email := "c2@example.com"
    full_name := none, role := UserRoleEnum.USER
    status := UserStatusEnum.ACTIVE }

/-- Listing instance for claim C2: MATERIAL listing in the MATERIAL
category, satisfying the invariant before the update. -/
def c2_listing : Listing :=
  { listing_id := 1, seller_id := 1, category_id := 1
    listing_type := ListingTypeEnum.MATERIAL, title := "Planks"
    description := "Oak planks", price := 10, price_unit := "kg"
    quantity := 3, origin_description := none, location_address_id := none
    status := ListingStatusEnum.PENDING, approved_by_admin_id := none }

/-- Store instance for claim C2. -/
def c2_db : DB :=
  { users := [c2_seller], categories := [c2_cat], listings := [c2_listing]
    images := [], next_listing_id := 2 }

/-- Update payload for claim C2: changes only the listing type. -/
def c2_upd : ListingUpdate :=
  { ListingUpdate.empty with listing_type := some ListingTypeEnum.PRODUCT }

/-- The listing as stored after the C2 update. -/
def c2_result : Listing := apply_update_fields c2_listing c2_upd

/-- INACTIVE (soft-deleted) listing instance for claim C7. -/
def c7_listing : Listing :=
  { listing_id := 1, seller_id := 1, category_id := 1
    listing_type := ListingTypeEnum.MATERIAL, title := "Gone"
    description := "Soft-deleted", price := 1, price_unit := "kg"
    quantity := 1, origin_description := none, location_address_id := none
    status := ListingStatusEnum.INACTIVE, approved_by_admin_id := none }

/-- Store instance for claim C7. -/
def c7_db : DB :=
  { users := [], categories := [], listings := [c7_listing], images := []
    next_listing_id := 2 }

/-- Moderation payload for claim C7: set status ACTIVE. -/
def c7_su : ListingStatusUpdate :=
  { status := ListingStatusEnum.ACTIVE, reason := none }

/-- The C7 listing after the admin moderation call. -/
def c7_reactivated : Listing :=
  { c7_listing with
    status := ListingStatusEnum.ACTIVE,
    approved_by_admin_id := some 9 }

/-- PENDING listing instance for the C8 witness. -/
def c8_listing : Listing :=
  { listing_id := 1, seller_id := 1, category_id := 1
    listing_type := ListingTypeEnum.MATERIAL, title := "Await"
    description := "Awaiting moderation", price := 2, price_unit := "kg"
    quantity := 7, origin_description := none, location_address_id := none
    status := ListingStatusEnum.PENDING, approved_by_admin_id := none }

/-- Store instance for the C8 witness. -/
def c8_db : DB :=
  { users := [], categories := [], listings := [c8_listing], images := []
    next_listing_id := 2 }

/-- Approval payload for the C8 witness. -/
def c8_su : ListingStatusUpdate :=
  { status := ListingStatusEnum.ACTIVE, reason := none }

/-- The C8 listing after admin 9 approves it. -/
def c8_approved : Listing :=
  { c8_listing with
    status := ListingStatusEnum.ACTIVE,
    approved_by_admin_id := some 9 }

/-- Listing instance for the C9 witness, owned by user 1. -/
def c9_listing : Listing :=
  { listing_id := 1, seller_id := 1, category_id := 1
    listing_type := ListingTypeEnum.PRODUCT, title := "Lamp"
    description := "Desk lamp", price := 15, price_unit := "unit"
    quantity := 1, origin_description := none, location_address_id := none
    status := ListingStatusEnum.ACTIVE, approved_by_admin_id := some 9 }

/-- Store instance for the C9 witness. -/
def c9_db : DB :=
  { users := [], categories := [], listings := [c9_listing], images := []
    next_listing_id := 2 }

/-- The C9 listing after soft deletion. -/
def c9_inactive : Listing :=
  { c9_listing with status := ListingStatusEnum.INACTIVE }

/-- Listing instance for the C10 witness, owned by user 1. -/
def c10_listing : Listing :=
  { listing_id := 1, seller_id := 1, category_id := 1
    listing_type := ListingTypeEnum.PRODUCT, title := "Vase"
    description := "Clay vase", price := 8, price_unit := "unit"
    quantity := 2, origin_description := none, location_address_id := none
    status := ListingStatusEnum.ACTIVE, approved_by_admin_id := some 9 }

/-- Store instance for the C10 witness. -/
def c10_db : DB :=
  { users := [], categories := [], listings := [c10_listing], images := []
    next_listing_id := 2 }

/-- A non-image file for the C10 witness. -/
def c10_badfile : UploadFile :=
  { filename := "notes.pdf", content_type := "application/pdf"
    s3_upload_ok := true }

/-- Listing instance for claim C4, owned by user 1, with no images. -/
def c4_listing : Listing :=
  { listing_id := 1, seller_id := 1, category_id := 1
    listing_type := ListingTypeEnum.PRODUCT, title := "Bowl"
    description := "Wooden bowl", price := 4, price_unit := "unit"
    quantity := 1, origin_description := none, location_address_id := none
    status := ListingStatusEnum.ACTIVE, approved_by_admin_id := some 9 }

/-- Store instance for claim C4 (the listing has zero images). -/
def c4_db : DB :=
  { users := [], categories := [], listings := [c4_listing], images := []
    next_listing_id := 2 }

/-- A valid image file for claim C4. -/
def c4_file : UploadFile :=
  { filename := "a.png", content_type := "image/png", s3_upload_ok := true }

/-- The single image row staged by the C4 counterexample call. -/
def c4_img : ListingImage :=
  { listing_id := 1, image_url := "listings/1/a.png", is_primary := false }

/-- Second valid image file for the C4 witness batch. -/
def c4w_file2 : UploadFile :=
  { filename := "b.png", content_type := "image/png", s3_upload_ok := true }

/-- The two-file batch of the C4 witness. -/
def c4w_files : List UploadFile := [c4_file, c4w_file2]

/-- The rows staged by the C4 witness call with `primaryIndex = 0`. -/
def c4w_imgs : List ListingImage :=
  [{ listing_id := 1, image_url := "listings/1/a.png", is_primary := true },
   { listing_id := 1, image_url := "listings/1/b.png", is_primary := false }]

/-! ## Theorems -/

/-- `jwt.decode` fails exactly when the signature is bad, the token is
expired, or issuer or audience mismatch. -/
theorem jwt_decode_eq_none_iff (td : TokenData) (key : JWK)
    (issuer audience : String) (now : Int) :
    jwt_decode td key issuer audience now = none ↔
      (sigOk td key = false ∨ td.claims.exp < now ∨
        td.claims.iss ≠ issuer ∨ td.claims.aud ≠ audience) := by
  unfold jwt_decode
  split_ifs with h1 h2 h3 h4 <;> simp_all

/-- `jwt.decode` succeeds with the claim set when all checks pass. -/
theorem jwt_decode_eq_some (td : TokenData) (key : JWK)
    (issuer audience : String) (now : Int)
    (hsig : sigOk td key = true) (hexp : ¬ td.claims.exp < now)
    (hiss : td.claims.iss = issuer) (haud : td.claims.aud = audience) :
    jwt_decode td key issuer audience now = some td.claims := by
  unfold jwt_decode
  split_ifs <;> simp_all

/-- C1: the strict resolver is claimed to look the user up by the
external-subject identifier and return an ACTIVE user.  The source instead
queries `User.user_id == uuid.UUID(sub)` — the integer autoincrement
primary key against the 128-bit subject value — so even a registered
ACTIVE user whose `cognito_sub` equals the token subject is not found and
the call fails with `UnregisteredUser`. -/
theorem c1_get_current_user_lookup_bug :
    (c1_payload.sub = some c1_user.cognito_sub ∧
      c1_user.status = UserStatusEnum.ACTIVE) ∧
    get_current_user [c1_user] c1_payload =
      .error AuthError.unregisteredUser := by
  decide

/-- C3: classification of `verify_cognito_token`: a structurally invalid
token fails with `MalformedToken`; a token whose `kid` matches no cached
key fails with `UnknownSigningKey`; with a matched key, a bad signature,
past expiry, or issuer/audience mismatch each yield the single
undifferentiated `InvalidToken`; when every check passes the decoded claim
set is returned. -/
theorem c3_verify_cognito_token_classification
    (jwks : JWKS) (st : Settings) (now : Int) :
    (verify_cognito_token jwks st now .malformed =
      .error AuthError.malformedToken) ∧
    (∀ td : TokenData,
      (jwks.keys.find? (fun jwk => jwk.kid == td.header.kid) = none →
        verify_cognito_token jwks st now (.parsed td) =
          .error AuthError.unknownSigningKey) ∧
      (∀ key,
        jwks.keys.find? (fun jwk => jwk.kid == td.header.kid) = some key →
        ((sigOk td key = false ∨ td.claims.exp < now ∨
            td.claims.iss ≠ expected_issuer st ∨
            td.claims.aud ≠ st.COGNITO_APP_CLIENT_ID) →
          verify_cognito_token jwks st now (.parsed td) =
            .error AuthError.invalidToken) ∧
        (sigOk td key = true → ¬ td.claims.exp < now →
          td.claims.iss = expected_issuer st →
          td.claims.aud = st.COGNITO_APP_CLIENT_ID →
          verify_cognito_token jwks st now (.parsed td) =
            .ok td.claims))) := by
  refine ⟨rfl, fun td => ⟨?_, fun key hk => ⟨?_, ?_⟩⟩⟩
  · intro h
    simp [verify_cognito_token, h]
  · intro hbad
    have hd := (jwt_decode_eq_none_iff td key (expected_issuer st)
      st.COGNITO_APP_CLIENT_ID now).mpr hbad
    simp [verify_cognito_token, hk, hd]
  · intro hsig hexp hiss haud
    have hd := jwt_decode_eq_some td key (expected_issuer st)
      st.COGNITO_APP_CLIENT_ID now hsig hexp hiss haud
    simp [verify_cognito_token, hk, hd]

/-- Witness for C3: a fully valid token passes verification and returns
its claim set. -/
theorem c3_witness :
    verify_cognito_token ⟨[c3_key]⟩ c3_st 1000 (.parsed c3_td) =
      .ok c3_td.claims :=
  (((c3_verify_cognito_token_classification ⟨[c3_key]⟩ c3_st 1000).2
      c3_td).2 c3_key (by decide)).2 (by decide) (by decide) (by decide)
    (by decide)

/-- Lookup `get_listing_by_id` with `include_inactive` reduces to lookup by id. -/
theorem get_listing_by_id_true_eq (db : DB) (lid : Nat) :
    get_listing_by_id db lid true =
      db.listings.find? (fun l => l.listing_id == lid) := by
  unfold get_listing_by_id
  simp

/-- After committing a mutated row with the same id as the row found by an
id lookup, the same lookup returns the mutated row. -/
theorem find?_replace (ls : List Listing) (l l' : Listing) (lid : Nat)
    (hid : l'.listing_id = l.listing_id)
    (h : ls.find? (fun x => x.listing_id == lid) = some l) :
    (ls.map (fun x => if x.listing_id == l'.listing_id then l' else x)).find?
      (fun x => x.listing_id == lid) = some l' := by
  induction ls with
  | nil => simp at h
  | cons a as ih =>
    simp only [List.find?_cons] at h
    simp only [List.map_cons, List.find?_cons]
    cases hb : (a.listing_id == lid) with
    | true =>
      simp only [hb, Option.some.injEq] at h
      subst h
      have hc : (a.listing_id == l'.listing_id) = true := by
        simp [hid]
      simp only [hc, if_true]
      have hp : (l'.listing_id == lid) = true := by
        rw [hid]; exact hb
      rw [hp]
    | false =>
      simp only [hb] at h
      have hll : (l.listing_id == lid) = true := by
        have := List.find?_some h
        simpa using this
      have hne : a.listing_id ≠ l.listing_id := by
        intro he
        rw [he, hll] at hb
        cases hb
      have hc : (a.listing_id == l'.listing_id) = false := by
        rw [hid]
        simp [hne]
      simp only [hc, if_false, Bool.false_eq_true]
      rw [hb]
      exact ih h

/-- Lookup of the mutated row after commit, stated on `DB`. -/
theorem get_after_replace (db : DB) (l l' : Listing) (lid : Nat)
    (hid : l'.listing_id = l.listing_id)
    (h : get_listing_by_id db lid true = some l) :
    get_listing_by_id (replace_listing db l') lid true = some l' := by
  rw [get_listing_by_id_true_eq] at h ⊢
  exact find?_replace db.listings l l' lid hid h

/-- C5: `update_listing` fails `NotFound` when the listing is missing,
`Forbidden` when the caller is not the owner, always fails on a REJECTED
listing, fails `ImmutableState` for the owner on a REJECTED listing, and
otherwise writes exactly the fields present in the partial input, leaving
absent fields (and status, approver, owner, id) unchanged. -/
theorem c5_update_listing_spec (db : DB) (lid : Nat) (d : ListingUpdate)
    (sid : Nat) :
    (get_listing_by_id db lid true = none →
      update_listing db lid d sid = (db, .error ListingError.notFound)) ∧
    (∀ l, get_listing_by_id db lid true = some l →
      (l.seller_id ≠ sid →
        update_listing db lid d sid = (db, .error ListingError.forbidden)) ∧
      (l.status = ListingStatusEnum.REJECTED →
        ∃ e, (update_listing db lid d sid).2 = .error e) ∧
      (l.seller_id = sid → l.status = ListingStatusEnum.REJECTED →
        update_listing db lid d sid =
          (db, .error ListingError.immutableState)) ∧
      (l.seller_id = sid → l.status ≠ ListingStatusEnum.REJECTED →
        update_listing db lid d sid =
          (replace_listing db (apply_update_fields l d),
            .ok (apply_update_fields l d)) ∧
        ((d.title = none → (apply_update_fields l d).title = l.title) ∧
          (∀ v, d.title = some v → (apply_update_fields l d).title = v)) ∧
        ((d.description = none →
            (apply_update_fields l d).description = l.description) ∧
          (∀ v, d.description = some v →
            (apply_update_fields l d).description = v)) ∧
        ((d.price = none → (apply_update_fields l d).price = l.price) ∧
          (∀ v, d.price = some v → (apply_update_fields l d).price = v)) ∧
        ((d.price_unit = none →
            (apply_update_fields l d).price_unit = l.price_unit) ∧
          (∀ v, d.price_unit = some v →
            (apply_update_fields l d).price_unit = v)) ∧
        ((d.quantity = none →
            (apply_update_fields l d).quantity = l.quantity) ∧
          (∀ v, d.quantity = some v →
            (apply_update_fields l d).quantity = v)) ∧
        ((d.category_id = none →
            (apply_update_fields l d).category_id = l.category_id) ∧
          (∀ v, d.category_id = some v →
            (apply_update_fields l d).category_id = v)) ∧
        ((d.listing_type = none →
            (apply_update_fields l d).listing_type = l.listing_type) ∧
          (∀ v, d.listing_type = some v →
            (apply_update_fields l d).listing_type = v)) ∧
        ((d.origin_description = none →
            (apply_update_fields l d).origin_description =
              l.origin_description) ∧
          (∀ v, d.origin_description = some v →
            (apply_update_fields l d).origin_description = v)) ∧
        ((d.location_address_id = none →
            (apply_update_fields l d).location_address_id =
              l.location_address_id) ∧
          (∀ v, d.location_address_id = some v →
            (apply_update_fields l d).location_address_id = v)) ∧
        (apply_update_fields l d).status = l.status ∧
        (apply_update_fields l d).seller_id = l.seller_id ∧
        (apply_update_fields l d).listing_id = l.listing_id ∧
        (apply_update_fields l d).approved_by_admin_id =
          l.approved_by_admin_id)) := by
  constructor
  · intro h
    simp [update_listing, h]
  · intro l hget
    refine ⟨?_, ?_, ?_, ?_⟩
    · intro hne
      simp [update_listing, hget, hne]
    · intro hrej
      by_cases hsid : l.seller_id = sid
      · refine ⟨ListingError.immutableState, ?_⟩
        simp [update_listing, hget, hsid, hrej]
      · refine ⟨ListingError.forbidden, ?_⟩
        simp [update_listing, hget, hsid]
    · intro hsid hrej
      simp [update_listing, hget, hsid, hrej]
    · intro hsid hrej
      refine ⟨by simp [update_listing, hget, hsid, hrej], ?_⟩
      refine ⟨⟨?_, ?_⟩, ⟨?_, ?_⟩, ⟨?_, ?_⟩, ⟨?_, ?_⟩, ⟨?_, ?_⟩, ⟨?_, ?_⟩,
        ⟨?_, ?_⟩, ⟨?_, ?_⟩, ⟨?_, ?_⟩, ?_, ?_, ?_, ?_⟩ <;>
        first
          | (intro hv; simp [apply_update_fields, hv])
          | (intro v hv; simp [apply_update_fields, hv])
          | simp [apply_update_fields]

/-- Witness for C5: the owner's partial update of a PENDING listing
succeeds, sets the present field and leaves an absent field unchanged. -/
theorem c5_witness :
    update_listing c5_db 1 c5_upd 1 =
      (replace_listing c5_db (apply_update_fields c5_listing c5_upd),
        .ok (apply_update_fields c5_listing c5_upd)) ∧
    (apply_update_fields c5_listing c5_upd).title = "New" ∧
    (apply_update_fields c5_listing c5_upd).description =
      c5_listing.description :=
  have H := (c5_update_listing_spec c5_db 1 c5_upd 1).2 c5_listing (by decide)
  ⟨(H.2.2.2 (by decide) (by decide)).1,
    (H.2.2.2 (by decide) (by decide)).2.1.2 "New" (by decide),
    (H.2.2.2 (by decide) (by decide)).2.2.1.1 (by decide)⟩

/-- C6: whenever the referenced category exists with matching type and the
seller exists with status ACTIVE, creation succeeds, and any listing it
returns has status PENDING — whatever status value the input carries. -/
theorem c6_create_listing_status_pending (db : DB) (data : ListingCreate)
    (sid : Nat) (c : Category) (u : User)
    (hc : db.categories.find? (fun x => x.category_id == data.category_id)
      = some c)
    (hct : c.type = data.listing_type)
    (hu : db.users.find? (fun x => x.user_id == sid) = some u)
    (hus : u.status = UserStatusEnum.ACTIVE) :
    (∀ e, (create_listing db data sid).2 ≠ .error e) ∧
    (∀ l, (create_listing db data sid).2 = .ok l →
      l.status = ListingStatusEnum.PENDING) := by
  unfold create_listing validate_category validate_seller
  rw [hc, hu]
  simp [hct, hus]

/-- Witness for C6: the concrete creation succeeds and the persisted
status is PENDING although the input said ACTIVE. -/
theorem c6_witness :
    c6_data.status = some ListingStatusEnum.ACTIVE ∧
    (create_listing c6_db c6_data 1).2 = .ok c6_listing ∧
    c6_listing.status = ListingStatusEnum.PENDING :=
  ⟨by decide, by decide,
    (c6_create_listing_status_pending c6_db c6_data 1 c6_cat c6_user
      (by decide) (by decide) (by decide) (by decide)).2 c6_listing
      (by decide)⟩

/-- Counterexample to C2: the owner's update setting `listing_type` to
PRODUCT succeeds and is committed, after which the stored listing's type
differs from its category's type — the invariant does not survive every
successful update, because `update_listing` never re-validates the
category. -/
theorem c2_counterexample :
    (update_listing c2_db 1 c2_upd 1).2 = .ok c2_result ∧
    get_listing_by_id (update_listing c2_db 1 c2_upd 1).1 1 true =
      some c2_result ∧
    (update_listing c2_db 1 c2_upd 1).1.categories.find?
      (fun c => c.category_id == c2_result.category_id) = some c2_cat ∧
    c2_result.listing_type ≠ c2_cat.type := by
  decide

/-- C2 amended: the type/category invariant is enforced at creation only:
`create_listing` fails `CategoryNotFound` when the category is missing and
`CategoryTypeMismatch` when its type differs from the input, and every
successfully created listing matches its category's type.  (Update
performs no such validation — see the counterexample.) -/
theorem c2_amended_category_validation_at_creation (db : DB)
    (data : ListingCreate) (sid : Nat) :
    (db.categories.find? (fun x => x.category_id == data.category_id)
        = none →
      create_listing db data sid =
        (db, .error ListingError.categoryNotFound)) ∧
    (∀ c,
      db.categories.find? (fun x => x.category_id == data.category_id)
          = some c →
      c.type ≠ data.listing_type →
      create_listing db data sid =
        (db, .error ListingError.categoryTypeMismatch)) ∧
    (∀ l, (create_listing db data sid).2 = .ok l →
      ∃ c,
        db.categories.find? (fun x => x.category_id == l.category_id)
            = some c ∧
        l.listing_type = c.type) := by
  refine ⟨?_, ?_, ?_⟩
  · intro h
    simp [create_listing, validate_category, h]
  · intro c hc hne
    simp [create_listing, validate_category, hc, hne]
  · intro l hl
    unfold create_listing at hl
    cases hv : validate_category db data.category_id data.listing_type with
    | error e => rw [hv] at hl; simp at hl
    | ok _ =>
      rw [hv] at hl
      cases hs : validate_seller db sid with
      | error e => rw [hs] at hl; simp at hl
      | ok _ =>
        rw [hs] at hl
        simp only [Except.ok.injEq] at hl
        obtain ⟨c, hc, hty⟩ :
            ∃ c,
              db.categories.find?
                  (fun x => x.category_id == data.category_id) = some c ∧
                c.type = data.listing_type := by
          unfold validate_category at hv
          cases hfind : db.categories.find?
              (fun x => x.category_id == data.category_id) with
          | none => rw [hfind] at hv; simp at hv
          | some c =>
            rw [hfind] at hv
            by_cases ht : (c.type != data.listing_type) = true
            · simp [ht] at hv
            · refine ⟨c, rfl, ?_⟩
              simpa [bne_iff_ne, Decidable.not_not] using ht
        refine ⟨c, ?_, ?_⟩
        · rw [← hl]
          simpa using hc
        · rw [← hl]
          simpa using hty.symm

/-- Witness for the amended C2: creating a PRODUCT listing in the MATERIAL
category fails with `CategoryTypeMismatch`. -/
theorem c2_amended_witness :
    create_listing c2_db
      { category_id := 1, listing_type := ListingTypeEnum.PRODUCT
        title := "Chair", description := "Chair", price := 5
        price_unit := "unit", quantity := 1, origin_description := none
        location_address_id := none, status := none } 1 =
      (c2_db, .error ListingError.categoryTypeMismatch) :=
  (c2_amended_category_validation_at_creation c2_db _ 1).2.1 c2_cat
    (by decide) (by decide)

/-- Counterexample to C7: `update_listing_status` transitions an INACTIVE
listing to ACTIVE (it writes any requested status with no check of the
current one), so INACTIVE is not terminal under the lifecycle manager's
operations. -/
theorem c7_counterexample :
    get_listing_by_id c7_db 1 true = some c7_listing ∧
    c7_listing.status = ListingStatusEnum.INACTIVE ∧
    (update_listing_status c7_db 1 c7_su 9).2 = .ok c7_reactivated ∧
    get_listing_by_id (update_listing_status c7_db 1 c7_su 9).1 1 true =
      some c7_reactivated ∧
    c7_reactivated.status ≠ ListingStatusEnum.INACTIVE := by
  decide

/-- C7 amended: INACTIVE is terminal only for the owner-facing operations:
`update_listing` (which never writes status) and `delete_listing` (which
writes INACTIVE again) leave an INACTIVE listing INACTIVE; admin
`update_listing_status` can move it to any status (see counterexample). -/
theorem c7_amended_inactive_terminal_for_owner_ops (db : DB) (lid : Nat)
    (d : ListingUpdate) (sid : Nat) (l : Listing)
    (hget : get_listing_by_id db lid true = some l)
    (hst : l.status = ListingStatusEnum.INACTIVE) :
    (∀ l2,
      get_listing_by_id (update_listing db lid d sid).1 lid true = some l2 →
      l2.status = ListingStatusEnum.INACTIVE) ∧
    (∀ l2,
      get_listing_by_id (delete_listing db lid sid).1 lid true = some l2 →
      l2.status = ListingStatusEnum.INACTIVE) := by
  have hrej : (l.status == ListingStatusEnum.REJECTED) = false := by
    rw [hst]; decide
  constructor
  · intro l2 h2
    by_cases hsid : (l.seller_id != sid) = true
    · simp only [update_listing, hget, hsid, if_true] at h2
      injection h2 with h2
      rw [← h2, hst]
    · simp only [update_listing, hget, hsid, hrej, Bool.false_eq_true,
        if_false] at h2
      have hrep := get_after_replace db l (apply_update_fields l d) lid
        rfl hget
      rw [hrep] at h2
      injection h2 with h2
      rw [← h2]
      simp [apply_update_fields, hst]
  · intro l2 h2
    by_cases hsid : (l.seller_id != sid) = true
    · simp only [delete_listing, hget, hsid, if_true] at h2
      injection h2 with h2
      rw [← h2, hst]
    · simp only [delete_listing, hget, hsid, Bool.false_eq_true,
        if_false] at h2
      have hrep := get_after_replace db l
        { l with status := ListingStatusEnum.INACTIVE } lid rfl hget
      rw [hrep] at h2
      injection h2 with h2
      rw [← h2]

/-- Witness for the amended C7: the owner's no-op update of the INACTIVE
listing leaves it INACTIVE. -/
theorem c7_amended_witness :
    c7_listing.status = ListingStatusEnum.INACTIVE :=
  (c7_amended_inactive_terminal_for_owner_ops c7_db 1 ListingUpdate.empty 1
      c7_listing (by decide) (by decide)).1 c7_listing (by decide)

/-- C8: `update_listing_status` fails `NotFound` when the listing is
missing; otherwise — with no ownership check, for every current status and
every caller id — it succeeds, writes exactly the requested status,
records the admin as approver exactly when the new status is ACTIVE, and
changes no other field of the listing; the store change is exactly the
commit of that row. -/
theorem c8_update_listing_status_spec (db : DB) (lid : Nat)
    (su : ListingStatusUpdate) (admin_id : Nat) :
    (get_listing_by_id db lid true = none →
      update_listing_status db lid su admin_id =
        (db, .error ListingError.notFound)) ∧
    (∀ l, get_listing_by_id db lid true = some l →
      (∀ e, (update_listing_status db lid su admin_id).2 ≠ .error e) ∧
      (∀ l', (update_listing_status db lid su admin_id).2 = .ok l' →
        update_listing_status db lid su admin_id =
          (replace_listing db l', .ok l') ∧
        l'.status = su.status ∧
        (su.status = ListingStatusEnum.ACTIVE →
          l'.approved_by_admin_id = some admin_id) ∧
        (su.status ≠ ListingStatusEnum.ACTIVE →
          l'.approved_by_admin_id = l.approved_by_admin_id) ∧
        l'.listing_id = l.listing_id ∧
        l'.seller_id = l.seller_id ∧
        l'.category_id = l.category_id ∧
        l'.listing_type = l.listing_type ∧
        l'.title = l.title ∧
        l'.description = l.description ∧
        l'.price = l.price ∧
        l'.price_unit = l.price_unit ∧
        l'.quantity = l.quantity ∧
        l'.origin_description = l.origin_description ∧
        l'.location_address_id = l.location_address_id)) := by
  constructor
  · intro h
    simp [update_listing_status, h]
  · intro l hget
    by_cases hA : (su.status == ListingStatusEnum.ACTIVE) = true
    · have hAe : su.status = ListingStatusEnum.ACTIVE := by
        simpa using hA
      constructor
      · intro e
        simp [update_listing_status, hget, hA]
      · intro l' hl'
        simp only [update_listing_status, hget, hA, if_true] at hl'
        injection hl' with hl'
        refine ⟨by simp [update_listing_status, hget, hA, hl'], ?_⟩
        rw [← hl']
        exact ⟨rfl, fun _ => rfl, fun hne => absurd hAe hne, rfl, rfl, rfl,
          rfl, rfl, rfl, rfl, rfl, rfl, rfl, rfl⟩
    · have hAe : su.status ≠ ListingStatusEnum.ACTIVE := by
        simpa using hA
      constructor
      · intro e
        simp [update_listing_status, hget, hA]
      · intro l' hl'
        simp only [update_listing_status, hget, hA, Bool.false_eq_true,
          if_false] at hl'
        injection hl' with hl'
        refine ⟨by simp [update_listing_status, hget, hA, hl'], ?_⟩
        rw [← hl']
        exact ⟨rfl, fun hc => absurd hc hAe, fun _ => rfl, rfl, rfl, rfl,
          rfl, rfl, rfl, rfl, rfl, rfl, rfl, rfl⟩

/-- Witness for C8: admin approval of the PENDING listing yields status
ACTIVE with the approver recorded and the title untouched. -/
theorem c8_witness :
    update_listing_status c8_db 1 c8_su 9 =
      (replace_listing c8_db c8_approved, .ok c8_approved) ∧
    c8_approved.status = c8_su.status ∧
    c8_approved.approved_by_admin_id = some 9 ∧
    c8_approved.title = c8_listing.title :=
  have H := ((c8_update_listing_status_spec c8_db 1 c8_su 9).2 c8_listing
    (by decide)).2 c8_approved (by decide)
  ⟨H.1, H.2.1, H.2.2.1 (by decide), H.2.2.2.2.2.2.2.2.1⟩

/-- C9: `delete_listing` fails `Forbidden` for every caller id that is not
the owner's; called by the owner it succeeds, commits status INACTIVE
unconditionally, and is idempotent — the second owner call also succeeds
and every lookup of the listing afterwards still shows INACTIVE. -/
theorem c9_delete_listing_spec (db : DB) (lid : Nat) (sid : Nat)
    (l : Listing) (hget : get_listing_by_id db lid true = some l) :
    (l.seller_id ≠ sid →
      delete_listing db lid sid = (db, .error ListingError.forbidden)) ∧
    (l.seller_id = sid →
      delete_listing db lid sid =
        (replace_listing db { l with status := ListingStatusEnum.INACTIVE },
          .ok true) ∧
      get_listing_by_id
          (replace_listing db { l with status := ListingStatusEnum.INACTIVE })
          lid true =
        some { l with status := ListingStatusEnum.INACTIVE } ∧
      (delete_listing
          (replace_listing db { l with status := ListingStatusEnum.INACTIVE })
          lid sid).2 = .ok true ∧
      (∀ l2,
        get_listing_by_id
            (delete_listing
              (replace_listing db
                { l with status := ListingStatusEnum.INACTIVE })
              lid sid).1 lid true = some l2 →
        l2.status = ListingStatusEnum.INACTIVE)) := by
  constructor
  · intro hne
    have hsid : (l.seller_id != sid) = true := by simpa using hne
    simp [delete_listing, hget, hsid]
  · intro heq
    have hsid : (l.seller_id != sid) = false := by simpa using heq
    have h1 : delete_listing db lid sid =
        (replace_listing db { l with status := ListingStatusEnum.INACTIVE },
          .ok true) := by
      simp [delete_listing, hget, hsid]
    have hget1 := get_after_replace db l
      { l with status := ListingStatusEnum.INACTIVE } lid rfl hget
    have h2 : delete_listing
        (replace_listing db { l with status := ListingStatusEnum.INACTIVE })
        lid sid =
        (replace_listing
          (replace_listing db { l with status := ListingStatusEnum.INACTIVE })
          { l with status := ListingStatusEnum.INACTIVE },
          .ok true) := by
      simp [delete_listing, hget1, hsid]
    refine ⟨h1, hget1, by rw [h2], ?_⟩
    intro l2 hl2
    rw [h2] at hl2
    have hget2 := get_after_replace
      (replace_listing db { l with status := ListingStatusEnum.INACTIVE })
      { l with status := ListingStatusEnum.INACTIVE }
      { l with status := ListingStatusEnum.INACTIVE } lid rfl hget1
    rw [hget2] at hl2
    injection hl2 with hl2
    rw [← hl2]

/-- Witness for C9: the non-owner caller 2 gets `Forbidden`; the owner's
delete succeeds, and so does deleting again. -/
theorem c9_witness :
    delete_listing c9_db 1 2 = (c9_db, .error ListingError.forbidden) ∧
    delete_listing c9_db 1 1 =
      (replace_listing c9_db c9_inactive, .ok true) ∧
    (delete_listing (replace_listing c9_db c9_inactive) 1 1).2 = .ok true :=
  have H := c9_delete_listing_spec c9_db 1 1 c9_listing (by decide)
  have H2 := c9_delete_listing_spec c9_db 1 2 c9_listing (by decide)
  ⟨H2.1 (by decide), (H.2 (by decide)).1, (H.2 (by decide)).2.2.1⟩

/-- C10: whenever `upload_listing_images` fails — missing listing, foreign
owner, quota overflow, a non-image file, or an S3 upload error at any
position — the committed store is unchanged: the commit runs only after
the whole batch has been validated and uploaded. -/
theorem c10_upload_failure_atomicity (db : DB) (lid : Nat)
    (files : List UploadFile) (sid : Nat) (pi : Int) (e : ListingError)
    (h : (upload_listing_images db lid files sid pi).2 = .error e) :
    (upload_listing_images db lid files sid pi).1 = db ∧
    (upload_listing_images db lid files sid pi).1.images = db.images := by
  refine ⟨?_, ?_⟩ <;>
  · unfold upload_listing_images at h ⊢
    cases hg : get_listing_by_id db lid true with
    | none => simp only [hg]
    | some l =>
      simp only [hg] at h ⊢
      by_cases hsid : (l.seller_id != sid) = true
      · simp only [hsid, if_true]
      · simp only [hsid, Bool.false_eq_true, if_false] at h ⊢
        by_cases hq :
            (listing_images db lid).length + files.length > 10
        · simp only [if_pos hq]
        · simp only [if_neg hq] at h ⊢
          cases hl : upload_images_loop lid pi
              (listing_images db lid).length [] 0 files with
          | error e2 => simp only [hl]
          | ok imgs =>
            rw [hl] at h
            simp at h

/-- Witness for C10: the owner's upload of a non-image file fails with
`InvalidImageType` and leaves the committed store untouched. -/
theorem c10_witness :
    (upload_listing_images c10_db 1 [c10_badfile] 1 0).2 =
      .error ListingError.invalidImageType ∧
    (upload_listing_images c10_db 1 [c10_badfile] 1 0).1 = c10_db :=
  ⟨by decide,
    (c10_upload_failure_atomicity c10_db 1 [c10_badfile] 1 0
      ListingError.invalidImageType (by decide)).1⟩

/-- When every file in the batch is a valid image and uploads cleanly, the
staging loop succeeds and appends one row per file; the row staged for
enumeration index `idx + i` is primary exactly when that index equals
`primary_index` and the listing had no images. -/
theorem upload_loop_ok_of_valid (lid : Nat) (pi : Int) (cur : Nat) :
    ∀ files : List UploadFile,
      (∀ f ∈ files,
        content_type_is_image f = true ∧ f.s3_upload_ok = true) →
      ∀ (acc : List ListingImage) (idx : Nat),
        ∃ imgs,
          upload_images_loop lid pi cur acc idx files = .ok (acc ++ imgs) ∧
          imgs.length = files.length ∧
          (∀ i (hi : i < imgs.length),
            (imgs.get ⟨i, hi⟩).is_primary =
              ((Int.ofNat (idx + i) == pi) && (cur == 0))) := by
  intro files
  induction files with
  | nil =>
    intro _ acc idx
    refine ⟨[], by simp [upload_images_loop], rfl, ?_⟩
    intro i hi
    cases hi
  | cons f rest ih =>
    intro hvalid acc idx
    have hf := hvalid f (List.mem_cons_self f rest)
    have hrest : ∀ g ∈ rest,
        content_type_is_image g = true ∧ g.s3_upload_ok = true :=
      fun g hg => hvalid g (List.mem_cons_of_mem f hg)
    obtain ⟨imgs', h1, h2, h3⟩ := ih hrest
      (acc ++ [{ listing_id := lid
                 image_url := "listings/" ++ toString lid ++ "/" ++ f.filename
                 is_primary := (Int.ofNat idx == pi) && (cur == 0) }])
      (idx + 1)
    refine ⟨{ listing_id := lid
              image_url := "listings/" ++ toString lid ++ "/" ++ f.filename
              is_primary := (Int.ofNat idx == pi) && (cur == 0) } :: imgs',
      ?_, ?_, ?_⟩
    · have hns : (!(content_type_is_image f)) = false := by
        rw [hf.1]; rfl
      simp only [upload_images_loop, hns, Bool.false_eq_true, if_false,
        s3_upload_image, hf.2, if_true]
      rw [h1]
      simp [List.append_assoc]
    · simp [h2]
    · intro i hi
      cases i with
      | zero =>
        simp
      | succ n =>
        have hn : n < imgs'.length := by
          simpa using Nat.lt_of_succ_lt_succ hi
        have := h3 n hn
        have harith : idx + 1 + n = idx + (n + 1) := by omega
        rw [harith] at this
        simpa using this

/-- A list of image rows with no primary row has primary count 0. -/
theorem countP_primary_eq_zero :
    ∀ imgs : List ListingImage,
      (∀ i (hi : i < imgs.length), (imgs.get ⟨i, hi⟩).is_primary = false) →
      imgs.countP (fun im => im.is_primary) = 0 := by
  intro imgs
  induction imgs with
  | nil => intro _; rfl
  | cons a t ih =>
    intro h
    have ha : a.is_primary = false := by
      simpa using h 0 (Nat.succ_pos t.length)
    rw [List.countP_cons]
    have ht : ∀ i (hi : i < t.length), (t.get ⟨i, hi⟩).is_primary = false := by
      intro i hi
      simpa using h (i + 1) (Nat.succ_lt_succ hi)
    simp [ha, ih ht]

/-- A list of image rows whose only primary row sits at position `j` has
primary count 1. -/
theorem countP_primary_eq_one :
    ∀ (imgs : List ListingImage) (j : Nat), j < imgs.length →
      (∀ i (hi : i < imgs.length),
        (imgs.get ⟨i, hi⟩).is_primary = decide (i = j)) →
      imgs.countP (fun im => im.is_primary) = 1 := by
  intro imgs
  induction imgs with
  | nil =>
    intro j hj
    cases hj
  | cons a t ih =>
    intro j hj h
    have ha := h 0 (Nat.succ_pos t.length)
    cases j with
    | zero =>
      have hat : a.is_primary = true := by simpa using ha
      have ht : ∀ i (hi : i < t.length),
          (t.get ⟨i, hi⟩).is_primary = false := by
        intro i hi
        simpa using h (i + 1) (Nat.succ_lt_succ hi)
      rw [List.countP_cons]
      simp [hat, countP_primary_eq_zero t ht]
    | succ k =>
      have haf : a.is_primary = false := by simpa using ha
      have hk : k < t.length := Nat.lt_of_succ_lt_succ hj
      have ht : ∀ i (hi : i < t.length),
          (t.get ⟨i, hi⟩).is_primary = decide (i = k) := by
        intro i hi
        have := h (i + 1) (Nat.succ_lt_succ hi)
        simpa using this
      rw [List.countP_cons]
      simp [haf, ih k hk ht]

/-- Counterexample to C4: with zero existing images and `primaryIndex = 1`
outside the one-element batch, the upload succeeds but no attached image
is marked primary — so "exactly one of the newly attached images is
marked primary" fails for this `primaryIndex`. -/
theorem c4_counterexample :
    listing_images c4_db 1 = [] ∧
    (upload_listing_images c4_db 1 [c4_file] 1 1).2 = .ok [c4_img] ∧
    c4_img.is_primary = false := by
  decide

/-- C4 amended: for an owner call with a batch of valid images within
quota, the upload succeeds; the existing image rows are preserved and the
new rows appended.  If the listing had zero images, the new image at
position `i` is primary exactly when `i = primaryIndex`, hence exactly one
new image is primary when `0 ≤ primaryIndex < |batch|` and none when
`primaryIndex` lies outside the batch; if the listing already had images,
none of the new images is primary. -/
theorem c4_amended_upload_primary_selection (db : DB) (lid : Nat)
    (files : List UploadFile) (sid : Nat) (pi : Int) (l : Listing)
    (hget : get_listing_by_id db lid true = some l)
    (hown : l.seller_id = sid)
    (hquota : (listing_images db lid).length + files.length ≤ 10)
    (hvalid : ∀ f ∈ files,
      content_type_is_image f = true ∧ f.s3_upload_ok = true) :
    (∀ e, (upload_listing_images db lid files sid pi).2 ≠ .error e) ∧
    (∀ imgs, (upload_listing_images db lid files sid pi).2 = .ok imgs →
      imgs.length = files.length ∧
      (upload_listing_images db lid files sid pi).1.images =
        db.images ++ imgs ∧
      ((listing_images db lid).length = 0 →
        (∀ i (hi : i < imgs.length),
          (imgs.get ⟨i, hi⟩).is_primary = (Int.ofNat i == pi)) ∧
        (0 ≤ pi → pi < Int.ofNat files.length →
          imgs.countP (fun im => im.is_primary) = 1) ∧
        ((pi < 0 ∨ Int.ofNat files.length ≤ pi) →
          imgs.countP (fun im => im.is_primary) = 0)) ∧
      ((listing_images db lid).length ≠ 0 →
        ∀ im ∈ imgs, im.is_primary = false)) := by
  obtain ⟨imgs0, hLoop, hLen, hPt⟩ :=
    upload_loop_ok_of_valid lid pi (listing_images db lid).length files
      hvalid [] 0
  have hsid : (l.seller_id != sid) = false := by simpa using hown
  have hq : ¬((listing_images db lid).length + files.length > 10) := by
    omega
  have key : upload_listing_images db lid files sid pi =
      ({ db with images := db.images ++ imgs0 }, .ok imgs0) := by
    simp only [upload_listing_images, hget, hsid, Bool.false_eq_true,
      if_false, if_neg hq, hLoop, List.nil_append]
  constructor
  · intro e
    rw [key]
    simp
  · intro imgs heq
    rw [key] at heq
    simp only [Except.ok.injEq] at heq
    subst heq
    refine ⟨hLen, by rw [key], ?_, ?_⟩
    · intro hz
      have hPt0 : ∀ i (hi : i < imgs0.length),
          (imgs0.get ⟨i, hi⟩).is_primary = (Int.ofNat i == pi) := by
        intro i hi
        have := hPt i hi
        rw [hz] at this
        simpa using this
      refine ⟨hPt0, ?_, ?_⟩
      · intro hpi0 hpilen
        have hj : pi.toNat < imgs0.length := by
          rw [hLen]
          simp only [Int.ofNat_eq_natCast] at hpilen
          omega
        refine countP_primary_eq_one imgs0 pi.toNat hj ?_
        intro i hi
        rw [hPt0 i hi]
        rw [Bool.eq_iff_iff]
        simp only [beq_iff_eq, decide_eq_true_eq, Int.ofNat_eq_natCast]
        simp only [Int.ofNat_eq_natCast] at hpilen
        omega
      · intro hout
        refine countP_primary_eq_zero imgs0 ?_
        intro i hi
        rw [hPt0 i hi]
        have hilen : i < files.length := by rw [← hLen]; exact hi
        simp only [beq_eq_false_iff_ne, ne_eq, Int.ofNat_eq_natCast]
        simp only [Int.ofNat_eq_natCast] at hout
        omega
    · intro hnz im him
      obtain ⟨⟨i, hi⟩, rfl⟩ := List.mem_iff_get.mp him
      have := hPt i hi
      have hcz : ((listing_images db lid).length == 0) = false := by
        simpa using hnz
      rw [hcz] at this
      simpa using this

/-- Witness for the amended C4: uploading two valid images with
`primaryIndex = 0` to the zero-image listing succeeds and marks exactly
one of them primary. -/
theorem c4_amended_witness :
    (upload_listing_images c4_db 1 c4w_files 1 0).2 = .ok c4w_imgs ∧
    c4w_imgs.countP (fun im => im.is_primary) = 1 :=
  have H := c4_amended_upload_primary_selection c4_db 1 c4w_files 1 0
    c4_listing (by decide) (by decide) (by decide) (by decide)
  ⟨by decide,
    ((H.2 c4w_imgs (by decide)).2.2.1 (by decide)).2.1 (by decide)
      (by decide)⟩

end App
